import Mathlib

/-
Verification of the naive neuro-symbolic pipeline (src/naive_neurosym.py).

Strings are embedded as `List Char`.  The two external collaborators are
embedded as oracles supplied to each function:

* the Ollama completion service (`ollama.chat`) becomes a function from the
  rendered prompt text to `Except e content` (`Except.error` models a raised
  exception or a malformed response shape — anything that makes the Python
  `try` block jump to its `except` clause);
* the SWI-Prolog engine becomes a `PrologEngine` record holding the outcome
  of consulting the saved program file and the outcome of the
  `solve(Solution)` query on it.

Pure string manipulation (`str.split`, `str.strip`, `in`, the fence
extraction in `prompt_to_prolog`, the result formatting in `execute_prolog`)
is translated directly from the Python source.
-/

namespace NaiveNeurosym

/-- The whitespace characters removed by Python `str.strip()` (ASCII range:
space, tab, newline, carriage return, vertical tab, form feed). -/
def isWS (c : Char) : Bool :=
  c = ' ' || c = '\t' || c = '\n' || c = '\r' || c = '\x0b' || c = '\x0c'

/-- Python `s.strip()`: drop leading and trailing whitespace. -/
def pyStrip (s : List Char) : List Char :=
  (((s.dropWhile isWS).reverse).dropWhile isWS).reverse

/-- Split a string at the first (leftmost) occurrence of `sep`, returning the
text before the occurrence and the text after it.  `none` when `sep` does not
occur.  This is the primitive behind Python's `sep in s` and `s.split(sep)`. -/
def splitFirst (sep : List Char) : List Char → Option (List Char × List Char)
  | [] => if sep.isPrefixOf ([] : List Char) then some ([], []) else none
  | c :: cs =>
    if sep.isPrefixOf (c :: cs) then some ([], (c :: cs).drop sep.length)
    else
      match splitFirst sep cs with
      | some (pre, post) => some (c :: pre, post)
      | none => none

/-- Python `sep in s` (substring containment). -/
def containsSubstr (sep s : List Char) : Bool :=
  (splitFirst sep s).isSome

/-- Fuel-indexed worker for `pySplit`.  The fuel only bounds the recursion;
`pySplit` always supplies enough of it. -/
def pySplitAux (sep : List Char) : Nat → List Char → List (List Char)
  | 0, s => [s]
  | fuel + 1, s =>
    match splitFirst sep s with
    | none => [s]
    | some (pre, post) => pre :: pySplitAux sep fuel post

/-- Python `s.split(sep)` for a non-empty separator: cut `s` at every
non-overlapping occurrence of `sep`, scanning left to right.  Each cut removes
at least one character, so `s.length + 1` steps always suffice. -/
def pySplit (sep s : List Char) : List (List Char) :=
  pySplitAux sep (s.length + 1) s

/-- The generic fence marker scanned for by `prompt_to_prolog`. -/
def fence : List Char := ("```").data

/-- The language-tagged fence marker scanned for by `prompt_to_prolog`. -/
def tagOpen : List Char := ("```prolog").data

/-- The code-extraction step of `prompt_to_prolog` (source lines 174-186),
before the final `strip`:

```python
if "```prolog" in prolog_code:
    parts = prolog_code.split("```prolog")
    if len(parts) > 1:
        prolog_code = parts[1].split("```")[0].strip()
elif "```" in prolog_code:
    parts = prolog_code.split("```")
    if len(parts) > 1:
        prolog_code = parts[1].split("```")[0].strip()
```
-/
def extractInner (text : List Char) : List Char :=
  if containsSubstr tagOpen text then
    if 1 < (pySplit tagOpen text).length then
      pyStrip ((pySplit fence ((pySplit tagOpen text).getD 1 [])).headD [])
    else text
  else if containsSubstr fence text then
    if 1 < (pySplit fence text).length then
      pyStrip ((pySplit fence ((pySplit fence text).getD 1 [])).headD [])
    else text
  else text

/-- The full extraction performed by `prompt_to_prolog` on the completion
text: the fence scan above followed by `prolog_code = prolog_code.strip()`
(source line 186). -/
def extract_code (text : List Char) : List Char :=
  pyStrip (extractInner text)

/-- `PROBLEM_TO_PROLOG_PROMPT` up to the `{problem}` placeholder. -/
def problemPromptPre : String :=
  "You are a Prolog expert. Generate ONLY valid SWI-Prolog code with NO text outside code.\n\nCRITICAL RULES:\n1. ALWAYS define finite domains BEFORE using member/2\n2. Use member(X, [val1, val2, val3]) with EXPLICIT lists only\n3. NEVER use member(X, List) where List is undefined - causes infinite loops\n4. Put all constraints EARLY to prune search space\n5. Use atoms (lowercase): alice, bob, red, blue, knight, knave\n6. Variables (Uppercase): X, Y, Z, Solution\n7. Include :- initialization(main). and halt\n\nGOOD PATTERN - Use this structure:\n```\n% Define solution with explicit finite domains\nsolve(Solution) :-\n    % Step 1: Define structure with variables\n    Solution = [person(name1, Attr1), person(name2, Attr2), person(name3, Attr3)],\n    \n    % Step 2: Define finite domains for each variable\n    member(Attr1, [value1, value2, value3]),\n    member(Attr2, [value1, value2, value3]),\n    member(Attr3, [value1, value2, value3]),\n    \n    % Step 3: Add constraints early\n    Attr1 \\= Attr2,\n    Attr2 \\= Attr3,\n    Attr1 \\= Attr3,\n    \n    % Step 4: Add problem-specific constraints\n    % (your logic here based on problem clues).\n\n% Auto-execution\n:- initialization(main).\nmain :-\n    solve(Solution),\n    writeln('Solution:'),\n    print_solution(Solution),\n    halt.\n\nprint_solution([]).\nprint_solution([H|T]) :- writeln(H), print_solution(T).\n```\n\nBAD PATTERNS - AVOID:\n- member(X, SomeList) where SomeList is not a concrete list\n- Recursive predicates without base cases\n- Missing constraints (generates too many solutions)\n\nPROBLEM TO SOLVE:\n"

/-- `PROBLEM_TO_PROLOG_PROMPT` after the `{problem}` placeholder. -/
def problemPromptPost : String :=
  "\n\nGenerate ONLY the Prolog code:\n```prolog"

/-- `PROBLEM_TO_PROLOG_PROMPT.format(problem=problem)`. -/
def renderProblemPrompt (problem : List Char) : List Char :=
  problemPromptPre.data ++ problem ++ problemPromptPost.data

/-- `RESULT_TO_TEXT_PROMPT` up to the `{problem}` placeholder. -/
def resultPromptPre : String :=
  "You are helping translate a Prolog solution into natural language.\n\nOriginal Problem:\n"

/-- `RESULT_TO_TEXT_PROMPT` between the `{problem}` and `{result}`
placeholders. -/
def resultPromptMid : String :=
  "\n\nProlog Output:\n"

/-- `RESULT_TO_TEXT_PROMPT` after the `{result}` placeholder. -/
def resultPromptPost : String :=
  "\n\nProvide a clear, natural language explanation of the solution. Be concise and direct."

/-- `RESULT_TO_TEXT_PROMPT.format(problem=problem, result=result)`. -/
def renderResultPrompt (problem result : List Char) : List Char :=
  resultPromptPre.data ++ problem ++ resultPromptMid.data ++ result
    ++ resultPromptPost.data

/-- A completion-service oracle: the behavior of `ollama.chat` followed by
`response['message']['content']`, as a function of the prompt content sent.
`Except.error` models a raised exception (service unreachable, malformed
response shape, ...). -/
abbrev Chat := List Char → Except (List Char) (List Char)

/-- `prompt_to_prolog` (source lines 141-199): render the generation prompt,
call the completion service, extract the fenced code, and reject results that
are empty or shorter than 20 characters.  Any exception inside the `try`
block (modelled by the oracle returning `Except.error`) yields `None`.

The Python binds the extracted text to a local `prolog_code`; here the
extraction is written `extract_code content` at each use. -/
def prompt_to_prolog (chat : Chat) (problem : List Char) : Option (List Char) :=
  match chat (renderProblemPrompt problem) with
  | .error _ => none
  | .ok content =>
    if extract_code content = [] ∨ (extract_code content).length < 20 then none
    else some (extract_code content)

/-- `result_to_text` (source lines 202-240): render the interpretation
prompt, call the completion service, and return its completion; on any
failure of that call, fall back to the raw `result` text. -/
def result_to_text (chat : Chat) (result original_problem : List Char) :
    List Char :=
  match chat (renderResultPrompt original_problem result) with
  | .ok content => content
  | .error _ => result

/-- A value bound to `Solution` in a pyswip answer dictionary.  The source
only tests `isinstance(solution, list)` and applies `str` to the value or to
its elements, so a value is embedded as either a scalar carrying its `str`
rendering, or a list carrying the `str` renderings of its elements. -/
inductive PyVal where
  | scalar (s : List Char)
  | plist (elems : List (List Char))
deriving DecidableEq

/-- The variable name `'Solution'` looked up in each answer dictionary. -/
def solutionKey : List Char := ("Solution").data

/-- One pyswip answer: a dictionary from variable names to values, embedded
as an association list. -/
abbrev Answer := List (List Char × PyVal)

/-- The body of the `for result in results:` loop in `execute_prolog`
(source lines 313-321): the output lines contributed by one answer.

```python
if 'Solution' in result:
    solution = result['Solution']
    if isinstance(solution, list):
        for item in solution:
            output_lines.append(str(item))
    else:
        output_lines.append(str(solution))
```
-/
def renderBinding (result : Answer) : List (List Char) :=
  match result.lookup solutionKey with
  | none => []
  | some (.plist elems) => elems
  | some (.scalar s) => [s]

/-- The newline separator of `"\n".join(output_lines)`. -/
def nl : List Char := ("\n").data

/-- The fixed neutral outcome text of `execute_prolog` (source line 331). -/
def neutralMessage : List Char :=
  ("Program consulted successfully. Check prolog_programs directory for generated code.").data

/-- `f"Prolog execution error: {e}"` (source line 335). -/
def prologErrorMsg (e : List Char) : List Char :=
  ("Prolog execution error: ").data ++ e

deriving instance DecidableEq for Except

/-- The inference-engine oracle for one saved program file: the outcome of
`prolog.consult(filepath)` and, if consulted, the outcome of
`list(prolog.query("solve(Solution)"))`.  `Except.error` models a raised
exception carrying the `str` of the exception object. -/
structure PrologEngine where
  consult : Except (List Char) Unit
  query_solve : Except (List Char) (List Answer)
deriving DecidableEq

/-- `execute_prolog` (source lines 284-337).  A consult failure is caught by
the outer `except` and returned as an error-message string; a query failure
is caught by the inner `except` and falls through to the neutral message; an
empty result list, or results contributing no output lines, also fall through
to the neutral message; otherwise the collected lines are joined with
newlines.  (The `filepath.replace` call only normalizes the path handed to
the engine and is absorbed into the oracle.) -/
def execute_prolog (eng : PrologEngine) : List Char :=
  match eng.consult with
  | .error e => prologErrorMsg e
  | .ok _ =>
    match eng.query_solve with
    | .error _ => neutralMessage
    | .ok results =>
      if results ≠ [] then
        if results.flatMap renderBinding ≠ [] then
          List.intercalate nl (results.flatMap renderBinding)
        else neutralMessage
      else neutralMessage

/-- The external behavior met by one iteration of `interactive_loop`: the
completion oracle for the generation call, whether `save_prolog_code`
succeeds, the engine behavior on the saved file, and the completion oracle
for the interpretation call. -/
structure Env where
  gen_chat : Chat
  save_ok : Bool
  engine : PrologEngine
  interp_chat : Chat

/-- Outcome of one pipeline iteration of `interactive_loop` (source lines
379-404): generation failed (`continue` with an error print), save failed
(`continue` with an error print), or a solution text delivered to the user. -/
inductive StepResult where
  | gen_error
  | save_error
  | delivered (text : List Char)
deriving DecidableEq

/-- One round trip of `interactive_loop` on a non-empty, non-exit input
(source lines 379-404): generate, save, execute, interpret, deliver. -/
def interactive_loop_step (env : Env) (user_input : List Char) : StepResult :=
  match prompt_to_prolog env.gen_chat user_input with
  | none => .gen_error
  | some _ =>
    if env.save_ok then
      .delivered
        (result_to_text env.interp_chat (execute_prolog env.engine) user_input)
    else .save_error

end NaiveNeurosym


namespace NaiveNeurosym

/-- A 32-character completion text with no fence markers and no surrounding
whitespace; its extraction passes the length guard unchanged. -/
def genContent : List Char := ("solve(s1). solve(s2). final(s3).").data

/-- A generation oracle that always completes with `genContent`. -/
def chatGen : Chat := fun _ => Except.ok genContent

/-- Round-trip environment whose engine rejects the program at load time and
whose interpretation oracle echoes the prompt it received. -/
def envC1 : Env :=
  { gen_chat := chatGen
    save_ok := true
    engine := ⟨Except.error (("boom").data), Except.ok []⟩
    interp_chat := fun p => Except.ok p }

/-- Same as `envC1` except for the interpretation oracle's completion. -/
def envC1b : Env := { envC1 with interp_chat := fun _ => Except.ok (("X").data) }

/-- Round-trip environment with a failing load and a failing interpretation
call. -/
def envW1 : Env :=
  { gen_chat := chatGen
    save_ok := true
    engine := ⟨Except.error (("load failed").data), Except.ok []⟩
    interp_chat := fun _ => Except.error [] }

/-- Engine whose query yields two answers, binding Solution to "a" and "b". -/
def engC2 : PrologEngine :=
  ⟨Except.ok (),
   Except.ok [[(solutionKey, PyVal.scalar (("a").data))],
              [(solutionKey, PyVal.scalar (("b").data))]]⟩

/-- Engine whose query yields only the first of `engC2`'s two answers. -/
def engC2first : PrologEngine :=
  ⟨Except.ok (), Except.ok [[(solutionKey, PyVal.scalar (("a").data))]]⟩

/-- Engine whose query yields one answer binding Solution to the empty
list. -/
def engC3 : PrologEngine :=
  ⟨Except.ok (), Except.ok [[(solutionKey, PyVal.plist [])]]⟩

/-- Engine whose query yields one answer binding Solution to a 3-element
list. -/
def engW3 : PrologEngine :=
  ⟨Except.ok (),
   Except.ok [[(solutionKey,
                PyVal.plist [("x").data, ("y").data, ("z").data])]]⟩

/-- Completion text where the closing marker after the first tagged open
marker overlaps a second tagged open marker. -/
def textC4 : List Char := ("```prologAB````prologtail").data

/-- Completion text holding a single, well-closed tagged fence. -/
def textW4 : List Char := ("```prolog\nfoo(bar), baz(qux).\n```").data

/-- Engine whose query yields zero answers. -/
def engW5a : PrologEngine := ⟨Except.ok (), Except.ok []⟩

/-- Engine whose query raises an exception. -/
def engW5b : PrologEngine :=
  ⟨Except.ok (), Except.error (("no such procedure").data)⟩

/-- An interpretation oracle that always fails. -/
def chatFail : Chat := fun _ => Except.error (("service down").data)

/-- A 3-character completion text: too short to pass the length guard. -/
def shortContent : List Char := ("ok.").data

/-- Round-trip environment whose generation oracle completes with a
too-short text. -/
def envC7 : Env :=
  { gen_chat := fun _ => Except.ok shortContent
    save_ok := true
    engine := ⟨Except.ok (), Except.ok []⟩
    interp_chat := fun _ => Except.error [] }

/-- Completion text with no fence markers but with surrounding whitespace. -/
def textW8 : List Char := ("  solve(X) :- member(X, [a]).  ").data

/-- A `dropWhile` result starts with a character failing the predicate. -/
theorem dropWhile_head?_false (p : Char → Bool) :
    ∀ (l : List Char) (a : Char), (l.dropWhile p).head? = some a → p a = false := by
  intro l
  induction l with
  | nil => intro a h; simp [List.dropWhile_nil] at h
  | cons c cs ih =>
    intro a h
    by_cases hc : p c = true
    · exact ih a (by simpa [List.dropWhile_cons_of_pos hc] using h)
    · rw [List.dropWhile_cons_of_neg hc] at h
      have hca : c = a := by simpa using h
      subst hca
      simpa using hc

/-- A list whose head fails the predicate is untouched by `dropWhile`. -/
theorem dropWhile_eq_self_of_head? (p : Char → Bool) (l : List Char)
    (h : ∀ a, l.head? = some a → p a = false) : l.dropWhile p = l := by
  cases l with
  | nil => rfl
  | cons c cs => simp [List.dropWhile_cons, h c rfl]

/-- `dropWhile` is idempotent. -/
theorem dropWhile_self_idem (p : Char → Bool) (l : List Char) :
    (l.dropWhile p).dropWhile p = l.dropWhile p :=
  dropWhile_eq_self_of_head? p _ (dropWhile_head?_false p l)

/-- `dropWhile` keeps the last element of a list it does not empty. -/
theorem getLast?_dropWhile (p : Char → Bool) :
    ∀ l : List Char, l.dropWhile p ≠ [] →
      (l.dropWhile p).getLast? = l.getLast? := by
  intro l
  induction l with
  | nil => intro h; simp [List.dropWhile_nil] at h
  | cons c cs ih =>
    intro h
    by_cases hc : p c = true
    · rw [List.dropWhile_cons_of_pos hc] at h ⊢
      rw [ih h]
      cases cs with
      | nil => rw [List.dropWhile_nil] at h; exact absurd rfl h
      | cons b bs => rw [List.getLast?_cons_cons]
    · rw [List.dropWhile_cons_of_neg hc]

/-- The last character of a stripped string is not whitespace. -/
theorem pyStrip_getLast?_false (s : List Char) (a : Char)
    (h : (pyStrip s).getLast? = some a) : isWS a = false := by
  unfold pyStrip at h
  rw [List.getLast?_reverse] at h
  exact dropWhile_head?_false isWS _ a h

/-- The first character of a stripped string is not whitespace. -/
theorem pyStrip_head?_false (s : List Char) (a : Char)
    (h : (pyStrip s).head? = some a) : isWS a = false := by
  unfold pyStrip at h
  rw [List.head?_reverse] at h
  have hne : ((s.dropWhile isWS).reverse).dropWhile isWS ≠ [] := by
    intro e; rw [e] at h; simp at h
  rw [getLast?_dropWhile isWS _ hne, List.getLast?_reverse] at h
  exact dropWhile_head?_false isWS s a h

/-- Python `strip` is idempotent. -/
theorem pyStrip_idem (s : List Char) : pyStrip (pyStrip s) = pyStrip s := by
  have h1 : (pyStrip s).dropWhile isWS = pyStrip s :=
    dropWhile_eq_self_of_head? isWS _ (fun a ha => pyStrip_head?_false s a ha)
  show (((pyStrip s).dropWhile isWS).reverse.dropWhile isWS).reverse = pyStrip s
  rw [h1]
  have h2 : (pyStrip s).reverse = ((s.dropWhile isWS).reverse).dropWhile isWS := by
    unfold pyStrip; rw [List.reverse_reverse]
  rw [h2, dropWhile_self_idem]
  rfl

/-- Without an occurrence of the separator, the fuelled splitter returns the
whole string as the single part. -/
theorem pySplitAux_of_none (sep : List Char) (fuel : Nat) (s : List Char)
    (h : splitFirst sep s = none) : pySplitAux sep fuel s = [s] := by
  cases fuel with
  | zero => rfl
  | succ n => simp [pySplitAux, h]

/-- The first part produced by `pySplit` is the text before the first
occurrence of the separator. -/
theorem pySplit_cons_of_splitFirst (sep s pre post : List Char)
    (h : splitFirst sep s = some (pre, post)) :
    pySplit sep s = pre :: pySplitAux sep s.length post := by
  unfold pySplit
  simp [pySplitAux, h]

/-- A leftmost occurrence of a longer separator forces an occurrence of any
of its prefixes. -/
theorem splitFirst_none_mono (sep1 sep2 : List Char) (hp : sep1 <+: sep2) :
    ∀ s : List Char, splitFirst sep1 s = none → splitFirst sep2 s = none := by
  intro s
  induction s with
  | nil =>
    intro h
    cases h2 : sep2.isPrefixOf ([] : List Char) with
    | false => simp [splitFirst, h2]
    | true =>
      exfalso
      have hs2 : sep2 <+: ([] : List Char) := List.isPrefixOf_iff_prefix.mp h2
      have hs1 : sep1.isPrefixOf ([] : List Char) = true :=
        List.isPrefixOf_iff_prefix.mpr (hp.trans hs2)
      simp [splitFirst, hs1] at h
  | cons c cs ih =>
    intro h
    have h1 : sep1.isPrefixOf (c :: cs) = false := by
      cases hb : sep1.isPrefixOf (c :: cs) with
      | false => rfl
      | true => exfalso; simp [splitFirst, hb] at h
    have hrec : splitFirst sep1 cs = none := by
      cases hsc : splitFirst sep1 cs with
      | none => rfl
      | some pr => exfalso; simp [splitFirst, h1, hsc] at h
    have h2 : sep2.isPrefixOf (c :: cs) = false := by
      cases hb : sep2.isPrefixOf (c :: cs) with
      | false => rfl
      | true =>
        exfalso
        have : sep1.isPrefixOf (c :: cs) = true :=
          List.isPrefixOf_iff_prefix.mpr
            (hp.trans (List.isPrefixOf_iff_prefix.mp hb))
        rw [h1] at this
        exact Bool.false_ne_true this
    simp [splitFirst, h2, ih hrec]

/-- A text containing the tagged marker contains the generic marker. -/
theorem containsSubstr_fence_of_tagOpen (s : List Char)
    (h : containsSubstr tagOpen s = true) : containsSubstr fence s = true := by
  unfold containsSubstr at h ⊢
  cases hf : splitFirst fence s with
  | some pr => rfl
  | none =>
    have hto : splitFirst tagOpen s = none :=
      splitFirst_none_mono fence tagOpen ⟨("prolog").data, by decide⟩ s hf
    rw [hto] at h
    simp at h

end NaiveNeurosym

namespace NaiveNeurosym

set_option maxRecDepth 8192 in
/-- C1 (counterexample): in a round trip whose engine rejects the program at
load time (`envC1`), the pipeline is not aborted: it delivers a result built
by the interpretation stage from the load-error message (here the echoing
interpretation oracle returns the interpretation prompt, which embeds
`prologErrorMsg "boom"`), and the delivered result changes when only the
interpretation oracle changes — so the load failure is forwarded into the
interpretation stage as an ordinary outcome. -/
theorem C1_counterexample :
    envC1.engine.consult = Except.error (("boom").data)
    ∧ interactive_loop_step envC1 (("puzzle").data)
        = StepResult.delivered
            (renderResultPrompt (("puzzle").data)
              (prologErrorMsg (("boom").data)))
    ∧ interactive_loop_step envC1 (("puzzle").data)
        ≠ interactive_loop_step envC1b (("puzzle").data) := by
  refine ⟨rfl, by decide, by decide⟩

/-- C1 (amended): when generation and persistence succeed and loading fails,
no query is attempted (the executor's result is the same for every query
behavior), but the round trip is not aborted: the engine's diagnostic,
wrapped as "Prolog execution error: ...", is forwarded as the ordinary
outcome into the interpretation stage and its result is delivered. -/
theorem C1_amended_load_failure_forwarded (env : Env) (input code e : List Char)
    (hgen : prompt_to_prolog env.gen_chat input = some code)
    (hsave : env.save_ok = true)
    (hload : env.engine.consult = Except.error e) :
    interactive_loop_step env input
      = StepResult.delivered
          (result_to_text env.interp_chat (prologErrorMsg e) input)
    ∧ ∀ q, execute_prolog ⟨Except.error e, q⟩ = prologErrorMsg e := by
  constructor
  · have hx : execute_prolog env.engine = prologErrorMsg e := by
      unfold execute_prolog
      rw [hload]
    simp only [interactive_loop_step, hgen, hsave, if_true, hx]
  · intro q
    rfl

/-- C1 (witness): a concrete failing load whose diagnostic reaches the
interpretation stage. -/
theorem C1_witness :
    envW1.save_ok = true
    ∧ envW1.engine.consult = Except.error (("load failed").data)
    ∧ interactive_loop_step envW1 (("p").data)
        = StepResult.delivered
            (result_to_text envW1.interp_chat
              (prologErrorMsg (("load failed").data)) (("p").data)) :=
  ⟨rfl, rfl,
    (C1_amended_load_failure_forwarded envW1 (("p").data) genContent
      (("load failed").data) (by decide) rfl rfl).1⟩

/-- C2 (counterexample): with two answers binding Solution to "a" and "b",
the outcome contains a line from each answer ("a\nb"); dropping the second
answer changes the outcome, so bindings of answers after the first do
contribute output lines. -/
theorem C2_counterexample :
    execute_prolog engC2 = ("a\nb").data
    ∧ execute_prolog engC2first = ("a").data
    ∧ execute_prolog engC2 ≠ execute_prolog engC2first := by
  refine ⟨by decide, by decide, by decide⟩

/-- C2 (amended): the executor uses the bindings of all answers: each
answer's Solution binding contributes its output lines, in answer order, and
the outcome is their newline-join whenever any lines were produced. -/
theorem C2_amended_all_answers (eng : PrologEngine) (results : List Answer)
    (h1 : eng.consult = Except.ok ())
    (h2 : eng.query_solve = Except.ok results)
    (h3 : results.flatMap renderBinding ≠ []) :
    execute_prolog eng = List.intercalate nl (results.flatMap renderBinding) := by
  have hr : results ≠ [] := by
    intro e
    rw [e] at h3
    simp at h3
  unfold execute_prolog
  rw [h1, h2]
  simp [hr, h3]

/-- C2 (witness): the two-answer engine's outcome is the join of both
answers' lines. -/
theorem C2_witness : execute_prolog engC2 = ("a\nb").data :=
  (C2_amended_all_answers engC2
      [[(solutionKey, PyVal.scalar (("a").data))],
       [(solutionKey, PyVal.scalar (("b").data))]]
      rfl rfl (by decide)).trans (by decide)

/-- C3 (counterexample): a sole answer binding Solution to an empty list
(N = 0) does not yield a 0-line outcome: the executor falls back to the
neutral message, which is not the empty rendering `intercalate nl []`. -/
theorem C3_counterexample :
    execute_prolog engC3 = neutralMessage
    ∧ List.intercalate nl ([] : List (List Char)) = []
    ∧ execute_prolog engC3 ≠ [] := by
  refine ⟨by decide, by decide, by decide⟩

/-- C3 (amended): when the sole answer binds Solution to a list of N string
forms, the outcome is exactly those N lines joined by newlines when N ≥ 1;
when N = 0 the binding contributes no lines and the executor returns the
neutral message instead of an empty outcome. -/
theorem C3_amended_list_binding (eng : PrologEngine) (elems : List (List Char))
    (h1 : eng.consult = Except.ok ())
    (h2 : eng.query_solve = Except.ok [[(solutionKey, PyVal.plist elems)]]) :
    (elems ≠ [] → execute_prolog eng = List.intercalate nl elems)
    ∧ (elems = [] → execute_prolog eng = neutralMessage) := by
  have hrb : renderBinding [(solutionKey, PyVal.plist elems)] = elems := by
    simp [renderBinding, List.lookup]
  constructor
  · intro hne
    unfold execute_prolog
    rw [h1, h2]
    simp [hrb, hne]
  · intro he
    subst he
    unfold execute_prolog
    rw [h1, h2]
    simp [hrb]

/-- C3 (witness): a 3-element list binding renders as 3 lines; the empty
list binding renders as the neutral message. -/
theorem C3_witness :
    execute_prolog engW3 = ("x\ny\nz").data
    ∧ execute_prolog engC3 = neutralMessage :=
  ⟨((C3_amended_list_binding engW3 [("x").data, ("y").data, ("z").data]
      rfl rfl).1 (by decide)).trans (by decide),
   (C3_amended_list_binding engC3 [] rfl rfl).2 rfl⟩

/-- C4 (counterexample): in `textC4` the first tagged open marker is
followed by "AB````prologtail", whose next closing marker comes after "AB";
the claim therefore demands the trimmed "AB", but extraction returns "AB`",
because the split at every tagged-marker occurrence truncates the close
search region at the second tagged marker. -/
theorem C4_counterexample :
    splitFirst tagOpen textC4 = some ([], ("AB````prologtail").data)
    ∧ splitFirst fence (("AB````prologtail").data)
        = some (("AB").data, ("`prologtail").data)
    ∧ pyStrip (("AB").data) = ("AB").data
    ∧ extract_code textC4 = ("AB`").data
    ∧ ("AB`").data ≠ ("AB").data := by
  refine ⟨by decide, by decide, by decide, by decide, by decide⟩

/-- C4 (amended): for every completion text in which the tagged open marker
occurs exactly once and some closing marker occurs after it, extraction
returns exactly the whitespace-trimmed substring between the tagged open
marker and the next closing marker. (With a repeated tagged marker the close
search region is truncated at the second occurrence, as the counterexample
shows.) -/
theorem C4_amended_single_tag (text pre post mid rest : List Char)
    (h1 : splitFirst tagOpen text = some (pre, post))
    (h2 : splitFirst tagOpen post = none)
    (h3 : splitFirst fence post = some (mid, rest)) :
    extract_code text = pyStrip mid := by
  have hc : containsSubstr tagOpen text = true := by
    simp [containsSubstr, h1]
  have e1 : pySplit tagOpen text = [pre, post] := by
    rw [pySplit_cons_of_splitFirst tagOpen text pre post h1,
        pySplitAux_of_none tagOpen text.length post h2]
  have e2 : (pySplit fence post).head?.getD [] = mid := by
    rw [pySplit_cons_of_splitFirst fence post mid rest h3]
    rfl
  unfold extract_code extractInner
  rw [hc]
  simp [e1, e2, pyStrip_idem]

/-- C4 (witness): a single well-closed tagged fence extracts to the trimmed
inner program text. -/
theorem C4_witness : extract_code textW4 = ("foo(bar), baz(qux).").data :=
  (C4_amended_single_tag textW4 [] (("\nfoo(bar), baz(qux).\n```").data)
      (("\nfoo(bar), baz(qux).\n").data) []
      (by decide) (by decide) (by decide)).trans (by decide)

/-- C5: after a successful load, a query yielding zero answers and a query
raising an exception both produce the same fixed neutral outcome text, never
an error. -/
theorem C5_query_failure_neutral (eng : PrologEngine)
    (h1 : eng.consult = Except.ok ())
    (h2 : eng.query_solve = Except.ok []
          ∨ ∃ e, eng.query_solve = Except.error e) :
    execute_prolog eng = neutralMessage := by
  unfold execute_prolog
  rw [h1]
  rcases h2 with h2 | ⟨e, h2⟩
  · rw [h2]
    simp
  · rw [h2]

/-- C5 (witness): a zero-answer engine and a raising engine both yield the
neutral message. -/
theorem C5_witness :
    execute_prolog engW5a = neutralMessage
    ∧ execute_prolog engW5b = neutralMessage :=
  ⟨C5_query_failure_neutral engW5a rfl (Or.inl rfl),
   C5_query_failure_neutral engW5b rfl
     (Or.inr ⟨("no such procedure").data, rfl⟩)⟩

/-- C6: whenever the interpretation-stage completion call fails, the
interpreter returns the raw outcome text unmodified. -/
theorem C6_interpretation_fallback (chat : Chat) (result problem e : List Char)
    (h : chat (renderResultPrompt problem result) = Except.error e) :
    result_to_text chat result problem = result := by
  unfold result_to_text
  rw [h]

/-- C6 (witness): a failing interpretation oracle returns the raw outcome
text. -/
theorem C6_witness :
    chatFail (renderResultPrompt (("prob").data) (("out").data))
      = Except.error (("service down").data)
    ∧ result_to_text chatFail (("out").data) (("prob").data) = ("out").data :=
  ⟨rfl,
   C6_interpretation_fallback chatFail (("out").data) (("prob").data)
     (("service down").data) rfl⟩

/-- C7: when the extracted code of the generation completion is shorter than
20 characters after trimming, generation fails (returns no program) and the
round trip ends in the generation-error branch, invoking no downstream
stage. -/
theorem C7_short_code_generation_error (env : Env) (input content : List Char)
    (h1 : env.gen_chat (renderProblemPrompt input) = Except.ok content)
    (h2 : (extract_code content).length < 20) :
    prompt_to_prolog env.gen_chat input = none
    ∧ interactive_loop_step env input = StepResult.gen_error := by
  have hp : prompt_to_prolog env.gen_chat input = none := by
    unfold prompt_to_prolog
    rw [h1]
    show (if extract_code content = [] ∨ (extract_code content).length < 20
        then (none : Option (List Char))
        else some (extract_code content)) = none
    exact if_pos (Or.inr h2)
  refine ⟨hp, ?_⟩
  unfold interactive_loop_step
  rw [hp]

/-- C7 (witness): a 3-character completion yields the generation-error
outcome. -/
theorem C7_witness :
    envC7.gen_chat (renderProblemPrompt (("p").data)) = Except.ok shortContent
    ∧ (extract_code shortContent).length < 20
    ∧ interactive_loop_step envC7 (("p").data) = StepResult.gen_error :=
  ⟨rfl, by decide,
   (C7_short_code_generation_error envC7 (("p").data) shortContent rfl
      (by decide)).2⟩

/-- C8: a completion text containing no generic fence marker (and hence no
tagged marker either) extracts to the full text trimmed of leading and
trailing whitespace. -/
theorem C8_no_fence_trimmed_full_text (text : List Char)
    (h : containsSubstr fence text = false) :
    extract_code text = pyStrip text := by
  have h2 : containsSubstr tagOpen text = false := by
    cases hc : containsSubstr tagOpen text with
    | false => rfl
    | true =>
      have := containsSubstr_fence_of_tagOpen text hc
      rw [h] at this
      exact absurd this Bool.false_ne_true
  unfold extract_code extractInner
  rw [h2, h]
  simp

/-- C8 (witness): an unfenced completion extracts to its trimmed text. -/
theorem C8_witness :
    containsSubstr fence textW8 = false
    ∧ extract_code textW8 = ("solve(X) :- member(X, [a]).").data :=
  ⟨by decide,
   (C8_no_fence_trimmed_full_text textW8 (by decide)).trans (by decide)⟩

/-- C9: execute_prolog is total at its boundary: for every engine behavior —
load failure, query failure, empty or non-empty answers — it returns a
string, which is either the wrapped load diagnostic, the neutral message, or
a newline-join of output lines; no failure escapes it. -/
theorem C9_execute_prolog_total (eng : PrologEngine) :
    (∃ e, eng.consult = Except.error e
          ∧ execute_prolog eng = prologErrorMsg e)
    ∨ execute_prolog eng = neutralMessage
    ∨ ∃ lines, lines ≠ [] ∧ execute_prolog eng = List.intercalate nl lines := by
  cases hc : eng.consult with
  | error e =>
    refine Or.inl ⟨e, rfl, ?_⟩
    unfold execute_prolog
    rw [hc]
  | ok u =>
    cases hq : eng.query_solve with
    | error e =>
      refine Or.inr (Or.inl ?_)
      unfold execute_prolog
      rw [hc, hq]
    | ok results =>
      by_cases hr : results = []
      · refine Or.inr (Or.inl ?_)
        unfold execute_prolog
        rw [hc, hq]
        simp [hr]
      · by_cases hl : results.flatMap renderBinding = []
        · refine Or.inr (Or.inl ?_)
          unfold execute_prolog
          rw [hc, hq]
          simp [hr, hl]
        · refine Or.inr (Or.inr ⟨results.flatMap renderBinding, hl, ?_⟩)
          unfold execute_prolog
          rw [hc, hq]
          simp [hr, hl]

/-- C10: whenever prompt_to_prolog returns a program text, that text is at
least 20 characters long and carries no leading or trailing whitespace: it
is fixed under strip, its first character is not whitespace, and its last
character is not whitespace. -/
theorem C10_generation_postcondition (chat : Chat) (problem code : List Char)
    (h : prompt_to_prolog chat problem = some code) :
    20 ≤ code.length ∧ pyStrip code = code
    ∧ (∀ a, code.head? = some a → isWS a = false)
    ∧ (∀ a, code.getLast? = some a → isWS a = false) := by
  unfold prompt_to_prolog at h
  cases hc : chat (renderProblemPrompt problem) with
  | error e =>
    rw [hc] at h
    have h' : (none : Option (List Char)) = some code := h
    exact absurd h' (by simp)
  | ok content =>
    rw [hc] at h
    have h' : (if extract_code content = [] ∨ (extract_code content).length < 20
        then (none : Option (List Char))
        else some (extract_code content)) = some code := h
    by_cases hg : extract_code content = [] ∨ (extract_code content).length < 20
    · rw [if_pos hg] at h'
      exact absurd h' (by simp)
    · rw [if_neg hg] at h'
      have hcode : extract_code content = code := Option.some.inj h'
      push_neg at hg
      refine ⟨?_, ?_, ?_, ?_⟩
      · rw [← hcode]
        exact hg.2
      · rw [← hcode]
        exact pyStrip_idem (extractInner content)
      · intro a ha
        rw [← hcode] at ha
        exact pyStrip_head?_false (extractInner content) a ha
      · intro a ha
        rw [← hcode] at ha
        exact pyStrip_getLast?_false (extractInner content) a ha

/-- C10 (witness): the concrete generation oracle's program text satisfies
the postcondition. -/
theorem C10_witness :
    prompt_to_prolog chatGen (("p").data) = some genContent
    ∧ 20 ≤ genContent.length ∧ pyStrip genContent = genContent := by
  have h := C10_generation_postcondition chatGen (("p").data) genContent
    (by decide)
  exact ⟨by decide, h.1, h.2.1⟩

end NaiveNeurosym
